import Mathlib

/-!
# amp-nexxtv-player 0.1

A shallow embedding of `extensions/amp-nexxtv-player/0.1/amp-nexxtv-player.js`.

The element is a record holding the five private fields of the class, the
attributes of the host element, and the part of the runtime the class talks
to: the microtask queue that promise reactions go through and a log of every
call that leaves the class (dispatched events, posted messages, ...).
A method is a function from the record to an outcome (a value or a thrown
error) and the record afterwards, so that what a method did before it threw
stays visible.

Strings are Unicode text (attribute values come from markup), on which
`encodeURIComponent` never raises `URIError`.
-/

namespace AmpNexxtvPlayer

/-! ## Values and errors of the language -/

/-- Errors a method can throw. -/
inductive JsError where
  /-- Thrown by `user().assert`, with the message template of the call. -/
  | userError (message : String)
  /-- A `TypeError` of the language: a property read or written on `null`,
  a call of something that is not a function, a failed `ToPrimitive`. -/
  | typeError (message : String)
  /-- An error raised by a collaborator outside this file. -/
  | hostError (message : String)
  deriving DecidableEq

/-- Plain data as `JSON.parse` and structured cloning produce it, plus
`undefined`. A number is carried by the text `String(n)` prints for it. -/
inductive JsValue where
  | undefined
  | null
  | boolean (b : Bool)
  | number (text : String)
  | string (s : String)
  | array (items : List JsValue)
  | object (props : List (String × JsValue))

/-- Property read `v[key]` for a key that is neither an index nor the name of
a built-in property (the file only reads `cmd`): the own property of an
object, `undefined` on every other object and primitive, a `TypeError` on
`null` and `undefined`. -/
def JsValue.get (v : JsValue) (key : String) : Except JsError JsValue :=
  match v with
  | .undefined => .error (.typeError "Cannot read property of undefined")
  | .null => .error (.typeError "Cannot read property of null")
  | .object props => .ok ((props.lookup key).getD .undefined)
  | _ => .ok .undefined

mutual
/-- The built-in `Array.prototype.join` with the default separator. -/
def JsValue.join : List JsValue → Option String
  | [] => some ""
  | [x] => JsValue.joinItem x
  | x :: y :: rest =>
    match JsValue.joinItem x, JsValue.join (y :: rest) with
    | some a, some b => some (a ++ "," ++ b)
    | _, _ => none
/-- One element of a join, `ToString` of it, with `undefined` and `null`
printed as the empty string; `none` when the conversion throws a `TypeError`
(a plain object whose own `toString` property hides
`Object.prototype.toString` with something that cannot be called). -/
def JsValue.joinItem : JsValue → Option String
  | .undefined => some ""
  | .null => some ""
  | .boolean b => some (if b then "true" else "false")
  | .number text => some text
  | .string s => some s
  | .array items => JsValue.join items
  | .object props => if JsValue.ownsToString props then none else some "[object Object]"
/-- Whether the property list has an own `toString` entry. -/
def JsValue.ownsToString : List (String × JsValue) → Bool
  | [] => false
  | (k, _) :: rest => k == "toString" || JsValue.ownsToString rest
end

/-- The comparison `v == name` for a string literal `name` that does not read
as a number (`ToNumber(name)` is `NaN`), which is the case of the five
command names the file compares with. Strings compare by content, objects
and arrays are first converted with `ToPrimitive`, `null`, `undefined`,
booleans and numbers never equal such a name. -/
def JsValue.looseEquals (v : JsValue) (name : String) : Except JsError Bool :=
  match v with
  | .undefined => .ok false
  | .null => .ok false
  | .boolean _ => .ok false
  | .number _ => .ok false
  | .string s => .ok (decide (s = name))
  | .array items =>
    match JsValue.join items with
    | some s => .ok (decide (s = name))
    | none => .error (.typeError "Cannot convert object to primitive value")
  | .object props =>
    if JsValue.ownsToString props then
      .error (.typeError "Cannot convert object to primitive value")
    else .ok (decide ("[object Object]" = name))

/-! ## `encodeURIComponent` and `JSON.stringify` -/

/-- The characters `encodeURIComponent` leaves alone: ASCII letters and
digits and `- _ . ! ~ * ' ( )`. -/
def uriUnescaped (c : Char) : Bool :=
  c.isAlphanum || c ∈ ['-', '_', '.', '!', '~', '*', Char.ofNat 39, '(', ')']

/-- Upper-case hexadecimal digit of a number below sixteen. -/
def hexDigitUpper (n : Nat) : Char :=
  if n % 16 < 10 then Char.ofNat (48 + n % 16) else Char.ofNat (55 + n % 16)

/-- The octets of the UTF-8 encoding of a code point. -/
def utf8Octets (c : Char) : List Nat :=
  let n := c.toNat
  if n < 0x80 then [n]
  else if n < 0x800 then [0xC0 + n / 64, 0x80 + n % 64]
  else if n < 0x10000 then [0xE0 + n / 4096, 0x80 + n / 64 % 64, 0x80 + n % 64]
  else [0xF0 + n / 262144, 0x80 + n / 4096 % 64, 0x80 + n / 64 % 64, 0x80 + n % 64]

/-- One octet as `%XX`. -/
def percentOctet (b : Nat) : List Char :=
  ['%', hexDigitUpper (b / 16), hexDigitUpper b]

/-- What `encodeURIComponent` writes for one character. -/
def encodeURIChar (c : Char) : List Char :=
  if uriUnescaped c then [c] else (utf8Octets c).flatMap percentOctet

/-- The built-in `encodeURIComponent` on well-formed text. -/
def encodeURIComponent (s : String) : String :=
  String.mk (s.data.flatMap encodeURIChar)

/-- Lower-case hexadecimal digit of a number below sixteen. -/
def hexDigitLower (n : Nat) : Char :=
  if n % 16 < 10 then Char.ofNat (48 + n % 16) else Char.ofNat (87 + n % 16)

/-- What `JSON.stringify` writes for one character of a string. -/
def jsonQuoteChar (c : Char) : List Char :=
  let n := c.toNat
  if n = 34 then [Char.ofNat 92, Char.ofNat 34]
  else if n = 92 then [Char.ofNat 92, Char.ofNat 92]
  else if n = 8 then [Char.ofNat 92, 'b']
  else if n = 12 then [Char.ofNat 92, 'f']
  else if n = 10 then [Char.ofNat 92, 'n']
  else if n = 13 then [Char.ofNat 92, 'r']
  else if n = 9 then [Char.ofNat 92, 't']
  else if n < 32 then [Char.ofNat 92, 'u', '0', '0', hexDigitLower (n / 16), hexDigitLower n]
  else [c]

/-- The expression `JSON.stringify(\x7b'cmd': command\x7d)` of `sendCommand_`. -/
def stringifyCmd (command : String) : String :=
  String.mk ([Char.ofNat 123] ++ "\"cmd\":\"".data ++ command.data.flatMap jsonQuoteChar
    ++ [Char.ofNat 34, Char.ofNat 125])

/-! ## Collaborators outside the file -/

/-- Modelled from the spec: the `VideoEvents` table of src/video-interface.js
is not among the sources; the file uses six of its keys, the "standardized
playback events" of the spec, each taken as an event of its own. -/
inductive VideoEvents where
  | LOAD
  | PLAY
  | PAUSE
  | MUTED
  | UNMUTED
  | VISIBILITY
  deriving DecidableEq

/-- The collaborators whose code decides nothing here and is not among the
sources: the URL validator of src/url.js (it throws or hands back a URL) and
`tryParseJson` of src/json.js (the parsed value, `undefined` when the input
does not parse). -/
structure Host where
  assertAbsoluteHttpOrHttpsUrl : String → Except JsError String
  tryParseJson : JsValue → JsValue

/-- Modelled from the spec: `user().assert` of src/log.js is not among the
sources; construction "fails" when the asserted attribute is absent or
empty, and the asserted value is handed back otherwise. -/
def userAssert (shouldBeTrueish : Option String) (message : String) :
    Except JsError String :=
  match shouldBeTrueish with
  | some s => if s = "" then .error (.userError message) else .ok s
  | none => .error (.userError message)

/-- Modelled from the spec: `isObject` of src/types.js is not among the
sources; a message's data is used as it is when it "is an object". -/
def isObject (v : JsValue) : Bool :=
  match v with
  | .object _ => true
  | _ => false

/-! ## The element -/

/-- The iframe created by `buildCallback`. -/
structure Iframe where
  attributes : List (String × String)
  src : Option String
  deriving DecidableEq

/-- The three states of a promise. -/
inductive PromiseState where
  | pending
  | fulfilled
  | rejected
  deriving DecidableEq

/-- The promise made by `buildCallback`: which `new Promise` made it, its
state, and the commands of the `then` callbacks waiting for it. -/
structure ReadyPromise where
  serial : Nat
  state : PromiseState
  reactions : List String
  deriving DecidableEq

/-- Calls that leave the class, in the order they are made. -/
inductive Effect where
  /-- The call `this.element.dispatchCustomEvent(name, detail)`; the detail is the
  `visible` flag of `viewportCallback`. -/
  | dispatchCustomEvent (name : VideoEvents) (detail : Option Bool)
  /-- The call `this.iframe_.contentWindow.postMessage(message, targetOrigin)`. -/
  | postMessage (message : String) (targetOrigin : String)
  /-- The call `this.preconnect.url(url, opt_onLayout)`. -/
  | preconnectUrl (url : String) (onLayout : Option Bool)
  /-- The call `this.applyFillContent(iframe)`. -/
  | applyFillContent
  /-- The call `this.element.appendChild(iframe)`. -/
  | appendChild
  /-- The calls `installVideoManagerForDoc` and `register(this)`. -/
  | registerVideo
  /-- The call `listen(this.iframe_, 'message', ...)`, with the handle it returned. -/
  | listen (handle : Nat)
  /-- The call `this.unlistenMessage_()`. -/
  | unlisten (handle : Nat)
  /-- The call `this.loadPromise(this.iframe_).then(...)`. -/
  | loadPromise
  /-- The call `removeElement(this.iframe_)`. -/
  | removeElement
  /-- A call of `playerReadyResolver_`, and whether this call settled the
  promise (only the first call of a resolver does). -/
  | resolve (settled : Bool)
  /-- An error that left a callback or a promise reaction. -/
  | uncaught (e : JsError)
  deriving DecidableEq

end AmpNexxtvPlayer

/-- The element: the attributes of `this.element`, the five private fields of
the class, and the runtime around it. -/
structure AmpNexxtvPlayer where
  attributes : List (String × String)
  iframe_ : Option AmpNexxtvPlayer.Iframe
  videoIframeSrc_ : Option String
  unlistenMessage_ : Option Nat
  playerReadyPromise_ : Option AmpNexxtvPlayer.ReadyPromise
  playerReadyResolver_ : Option Nat
  /-- Promise reactions queued for the next microtask checkpoint: the
  commands of `() => this.sendCommand_(command)`. -/
  microtasks : List String
  /-- Number of `new Promise` evaluated so far. -/
  promisesMade : Nat
  /-- Number of `listen` calls so far. -/
  listensMade : Nat
  effects : List AmpNexxtvPlayer.Effect
  deriving DecidableEq

namespace AmpNexxtvPlayer

/-- What a method leaves behind: its completion and the element afterwards. -/
abbrev Outcome (α : Type) := Except JsError α × AmpNexxtvPlayer

/-- The constructor: every private field starts as `null`. -/
def new (attributes : List (String × String)) : AmpNexxtvPlayer :=
  { attributes := attributes
    iframe_ := none
    videoIframeSrc_ := none
    unlistenMessage_ := none
    playerReadyPromise_ := none
    playerReadyResolver_ := none
    microtasks := []
    promisesMade := 0
    listensMade := 0
    effects := [] }

/-- The call `this.element.getAttribute(name)`. -/
def getAttribute (self : AmpNexxtvPlayer) (name : String) : Option String :=
  self.attributes.lookup name

/-- The expression `value || fallback` on an attribute value: `null` and the empty string
are falsy. -/
def orElse (value : Option String) (fallback : String) : String :=
  match value with
  | some s => if s = "" then fallback else s
  | none => fallback

/-- The call `this.element.dispatchCustomEvent(name, detail)`. -/
def dispatchCustomEvent (self : AmpNexxtvPlayer) (name : VideoEvents)
    (detail : Option Bool) : AmpNexxtvPlayer :=
  { self with effects := self.effects ++ [Effect.dispatchCustomEvent name detail] }

/-- The call `this.playerReadyResolver_(this.iframe_)`: a `TypeError` while the field
is `null`; otherwise the promise the resolver belongs to is fulfilled if it
is still pending (its waiting reactions are queued as microtasks) and the
call does nothing if not. The iframe is not a thenable, so resolving with it
fulfils. -/
def callPlayerReadyResolver_ (self : AmpNexxtvPlayer) : Outcome Unit :=
  match self.playerReadyResolver_ with
  | none => (.error (.typeError "playerReadyResolver_ is not a function"), self)
  | some r =>
    match self.playerReadyPromise_ with
    | some p =>
      if p.serial = r ∧ p.state = .pending then
        (.ok (), { self with
          playerReadyPromise_ := some { p with state := .fulfilled, reactions := [] }
          microtasks := self.microtasks ++ p.reactions
          effects := self.effects ++ [Effect.resolve true] })
      else (.ok (), { self with effects := self.effects ++ [Effect.resolve false] })
    | none => (.ok (), { self with effects := self.effects ++ [Effect.resolve false] })

/-- The call `this.playerReadyPromise_.then(() => this.sendCommand_(command))`. -/
def playerReadyPromiseThen (command : String) (self : AmpNexxtvPlayer) : Outcome Unit :=
  match self.playerReadyPromise_ with
  | none => (.error (.typeError "Cannot read property then of null"), self)
  | some p =>
    match p.state with
    | .pending =>
      (.ok (), { self with
        playerReadyPromise_ := some { p with reactions := p.reactions ++ [command] } })
    | .fulfilled => (.ok (), { self with microtasks := self.microtasks ++ [command] })
    | .rejected => (.ok (), self)

/-! ## The methods, in the order of the source -/

/-- Whether `if (value)` takes the branch: `null` and the empty string are
falsy. -/
def truthy (value : Option String) : Bool :=
  match value with
  | some s => decide (s ≠ "")
  | none => false

/-- The call `this.preconnect.url(url, opt_onLayout)`. -/
def preconnectUrl (self : AmpNexxtvPlayer) (url : String) (opt_onLayout : Option Bool) :
    AmpNexxtvPlayer :=
  { self with effects := self.effects ++ [Effect.preconnectUrl url opt_onLayout] }

/-- Method `buildCallback()`: a fresh pending promise and its resolver, then the
iframe, created with its two attributes and appended to the element, and the
registration with the video manager. -/
def buildCallback (self : AmpNexxtvPlayer) : Outcome Unit :=
  let self := { self with
    playerReadyPromise_ :=
      some { serial := self.promisesMade, state := .pending, reactions := [] }
    playerReadyResolver_ := some self.promisesMade
    promisesMade := self.promisesMade + 1 }
  let iframe : Iframe := { attributes := [], src := none }
  let self := { self with iframe_ := some iframe }
  let self := { self with effects := self.effects ++ [Effect.applyFillContent] }
  let iframe := { iframe with attributes := iframe.attributes ++ [("frameborder", "0")] }
  let iframe := { iframe with attributes := iframe.attributes ++ [("allowfullscreen", "true")] }
  let self := { self with iframe_ := some iframe }
  let self := { self with effects := self.effects ++ [Effect.appendChild] }
  (.ok (), { self with effects := self.effects ++ [Effect.registerVideo] })

/-- Method `getVideoIframeSrc_()`. `String(start)` is the attribute, or `"0"` for
the number the `||` falls back to. -/
def getVideoIframeSrc_ (host : Host) (self : AmpNexxtvPlayer) : Outcome String :=
  if truthy self.videoIframeSrc_ then (.ok (self.videoIframeSrc_.getD ""), self) else
  match userAssert (getAttribute self "data-mediaid")
      "The data-mediaid attribute is required for <amp-nexxtv-player> %s" with
  | .error e => (.error e, self)
  | .ok mediaId =>
  match userAssert (getAttribute self "data-client")
      "The data-client attribute is required for <amp-nexxtv-player> %s" with
  | .error e => (.error e, self)
  | .ok client =>
    let start := orElse (getAttribute self "data-seek-to") "0"
    let mode := orElse (getAttribute self "data-mode") "static"
    let streamtype := orElse (getAttribute self "data-streamtype") "video"
    let origin := orElse (getAttribute self "data-origin") "https://embed.nexx.cloud/"
    let src := ""
    let src := src ++ origin
    let src := if streamtype ≠ "video" then src ++ (encodeURIComponent streamtype ++ "/") else src
    let src := src ++ (encodeURIComponent client ++ "/")
    let src := src ++ encodeURIComponent mediaId
    let src := src ++ ("?start=" ++ encodeURIComponent start)
    let src := src ++ ("&datamode=" ++ encodeURIComponent mode ++ "&amp=1")
    match host.assertAbsoluteHttpOrHttpsUrl src with
    | .error e => (.error e, self)
    | .ok url => (.ok url, { self with videoIframeSrc_ := some url })

/-- Method `preconnectCallback(opt_onLayout)`. -/
def preconnectCallback (host : Host) (opt_onLayout : Option Bool) (self : AmpNexxtvPlayer) :
    Outcome Unit :=
  match getVideoIframeSrc_ host self with
  | (.error e, self) => (.error e, self)
  | (.ok url, self) => (.ok (), preconnectUrl self url opt_onLayout)

/-- Method `viewportCallback(visible)`. -/
def viewportCallback (visible : Bool) (self : AmpNexxtvPlayer) : Outcome Unit :=
  (.ok (), dispatchCustomEvent self .VISIBILITY (some visible))

/-- Method `layoutCallback()`, up to the promise it returns. The right-hand side of
`this.iframe_.src = this.getVideoIframeSrc_()` is evaluated before the
property is written, as engines do; writing it on `null` is a `TypeError`. -/
def layoutCallback (host : Host) (self : AmpNexxtvPlayer) : Outcome Unit :=
  match getVideoIframeSrc_ host self with
  | (.error e, self) => (.error e, self)
  | (.ok url, self) =>
    match self.iframe_ with
    | none => (.error (.typeError "Cannot set property src of null"), self)
    | some iframe =>
      let self := { self with iframe_ := some { iframe with src := some url } }
      let self := { self with
        unlistenMessage_ := some self.listensMade
        listensMade := self.listensMade + 1
        effects := self.effects ++ [Effect.listen self.listensMade] }
      (.ok (), { self with effects := self.effects ++ [Effect.loadPromise] })

/-- The callback `layoutCallback` chains on `loadPromise(this.iframe_)`, run
when the iframe has loaded. -/
def layoutCallbackThen (self : AmpNexxtvPlayer) : Outcome Unit :=
  callPlayerReadyResolver_ (dispatchCustomEvent self .LOAD none)

/-- Method `sendCommand_(command)`. The iframe is the element's child from
`buildCallback` to `unlayoutCallback`, so its `contentWindow` is there. -/
def sendCommand_ (command : String) (self : AmpNexxtvPlayer) : Outcome Unit :=
  match self.iframe_ with
  | none => (.error (.typeError "Cannot read property contentWindow of null"), self)
  | some _ =>
    (.ok (), { self with effects := self.effects ++ [Effect.postMessage (stringifyCmd command) "*"] })

/-- Method `play()`. -/
def play (self : AmpNexxtvPlayer) : Outcome Unit :=
  playerReadyPromiseThen "play" self

/-- Method `pause()`. -/
def pause (self : AmpNexxtvPlayer) : Outcome Unit :=
  playerReadyPromiseThen "pause" self

/-- Method `mute()`. -/
def mute (self : AmpNexxtvPlayer) : Outcome Unit :=
  playerReadyPromiseThen "mute" self

/-- Method `unmute()`. -/
def unmute (self : AmpNexxtvPlayer) : Outcome Unit :=
  playerReadyPromiseThen "unmute" self

/-- Method `pauseCallback()`. -/
def pauseCallback (self : AmpNexxtvPlayer) : Outcome Unit :=
  match self.iframe_ with
  | some _ => pause self
  | none => (.ok (), self)

/-- Method `unlayoutCallback()`. -/
def unlayoutCallback (self : AmpNexxtvPlayer) : Outcome Bool :=
  let self :=
    match self.iframe_ with
    | some _ => { self with iframe_ := none, effects := self.effects ++ [Effect.removeElement] }
    | none => self
  let self :=
    match self.unlistenMessage_ with
    | some handle => { self with effects := self.effects ++ [Effect.unlisten handle] }
    | none => self
  (.ok true, self)

/-- The test `data.cmd == name` of `handleNexxMessages_`. -/
def cmdEquals (data : JsValue) (name : String) : Except JsError Bool :=
  match data.get "cmd" with
  | .error e => .error e
  | .ok cmd => cmd.looseEquals name

/-- Method `handleNexxMessages_(event)`, on `event.data`. -/
def handleNexxMessages_ (host : Host) (eventData : JsValue) (self : AmpNexxtvPlayer) :
    Outcome Unit :=
  let data := if isObject eventData then eventData else host.tryParseJson eventData
  match data with
  | .undefined => (.ok (), self)
  | data =>
    match cmdEquals data "onload" with
    | .error e => (.error e, self)
    | .ok true => callPlayerReadyResolver_ (dispatchCustomEvent self .LOAD none)
    | .ok false =>
    match cmdEquals data "play" with
    | .error e => (.error e, self)
    | .ok true => (.ok (), dispatchCustomEvent self .PLAY none)
    | .ok false =>
    match cmdEquals data "pause" with
    | .error e => (.error e, self)
    | .ok true => (.ok (), dispatchCustomEvent self .PAUSE none)
    | .ok false =>
    match cmdEquals data "mute" with
    | .error e => (.error e, self)
    | .ok true => (.ok (), dispatchCustomEvent self .MUTED none)
    | .ok false =>
    match cmdEquals data "unmute" with
    | .error e => (.error e, self)
    | .ok true => (.ok (), dispatchCustomEvent self .UNMUTED none)
    | .ok false => (.ok (), self)

/-! ## Runs of the element -/

/-- An error that leaves a callback or a promise reaction is recorded; the
element lives on. -/
def settle {α : Type} (o : Outcome α) : AmpNexxtvPlayer :=
  match o with
  | (.ok _, self) => self
  | (.error e, self) => { self with effects := self.effects ++ [Effect.uncaught e] }

/-- A microtask checkpoint: the queued reactions run in order, each one a
call of `sendCommand_`. -/
def runMicrotasks (self : AmpNexxtvPlayer) : AmpNexxtvPlayer :=
  self.microtasks.foldl (fun w command => settle (sendCommand_ command w))
    { self with microtasks := [] }

/-- What can happen to a constructed element. -/
inductive Call where
  | preconnectCallback (opt_onLayout : Option Bool)
  | buildCallback
  | viewportCallback (visible : Bool)
  | layoutCallback
  /-- The iframe has loaded: the callback chained by `layoutCallback` runs. -/
  | iframeLoaded
  | pauseCallback
  | unlayoutCallback
  /-- A message event reaches `handleNexxMessages_`. -/
  | message (eventData : JsValue)
  | play
  | pause
  | mute
  | unmute
  /-- The call stack is empty: microtask checkpoint. -/
  | microtasks
  /-- The page rewrites the attributes of the element. -/
  | setAttributes (attributes : List (String × String))

/-- One call. -/
def step (host : Host) (c : Call) (self : AmpNexxtvPlayer) : AmpNexxtvPlayer :=
  match c with
  | .preconnectCallback opt_onLayout => settle (preconnectCallback host opt_onLayout self)
  | .buildCallback => settle (buildCallback self)
  | .viewportCallback visible => settle (viewportCallback visible self)
  | .layoutCallback => settle (layoutCallback host self)
  | .iframeLoaded => settle (layoutCallbackThen self)
  | .pauseCallback => settle (pauseCallback self)
  | .unlayoutCallback => settle (unlayoutCallback self)
  | .message eventData => settle (handleNexxMessages_ host eventData self)
  | .play => settle (play self)
  | .pause => settle (pause self)
  | .mute => settle (mute self)
  | .unmute => settle (unmute self)
  | .microtasks => runMicrotasks self
  | .setAttributes attributes => { self with attributes := attributes }

/-- A sequence of calls, first to last. -/
def run (host : Host) : List Call → AmpNexxtvPlayer → AmpNexxtvPlayer
  | [], self => self
  | c :: cs, self => run host cs (step host c self)

/-! ## The specification's formula, and worked examples -/

/-- The URL of the specification, for client `c` and media id `m`:
origin, optional stream-type segment, client, media id, then the start
offset and the mode as query parameters. -/
def specVideoIframeSrc (self : AmpNexxtvPlayer) (c m : String) : String :=
  let origin :=
    match getAttribute self "data-origin" with
    | some o => if o = "" then "https://embed.nexx.cloud/" else o
    | none => "https://embed.nexx.cloud/"
  let seg :=
    match getAttribute self "data-streamtype" with
    | some t => if t ≠ "" ∧ t ≠ "video" then encodeURIComponent t ++ "/" else ""
    | none => ""
  let start :=
    match getAttribute self "data-seek-to" with
    | some t => if t = "" then "0" else t
    | none => "0"
  let mode :=
    match getAttribute self "data-mode" with
    | some t => if t = "" then "static" else t
    | none => "static"
  origin ++ seg ++ encodeURIComponent c ++ "/" ++ encodeURIComponent m
    ++ "?start=" ++ encodeURIComponent start
    ++ "&datamode=" ++ encodeURIComponent mode ++ "&amp=1"

/-- A host for the worked examples: the validator accepts what starts with
`http://` or `https://` and hands it back unchanged, the parser knows the
text of one message and answers `undefined` to everything else. -/
def exampleHost : Host :=
  { assertAbsoluteHttpOrHttpsUrl := fun s =>
      if "http://".data.isPrefixOf s.data || "https://".data.isPrefixOf s.data then .ok s
      else .error (.userError "URL must start with \"http://\" or \"https://\". Invalid value: %s")
    tryParseJson := fun v =>
      match v with
      | .string s =>
        if s = stringifyCmd "pause" then .object [("cmd", .string "pause")] else .undefined
      | _ => .undefined }

/-- An element as the constructor leaves it, with the two required
attributes and a stream type. -/
def examplePlayer : AmpNexxtvPlayer :=
  new [("data-mediaid", "PTPFEC4U184674"), ("data-client", "583"), ("data-streamtype", "audio")]

/-- An attribute is absent or empty. -/
abbrev absentOrEmpty (value : Option String) : Prop :=
  value = none ∨ value = some ""

/-- The error of the media-id assertion. -/
def mediaIdRequired : JsError :=
  .userError "The data-mediaid attribute is required for <amp-nexxtv-player> %s"

/-- The error of the client assertion. -/
def clientRequired : JsError :=
  .userError "The data-client attribute is required for <amp-nexxtv-player> %s"

/-- The optional stream-type segment of the URL. -/
def specSegment (self : AmpNexxtvPlayer) : String :=
  match getAttribute self "data-streamtype" with
  | some t => if t ≠ "" ∧ t ≠ "video" then encodeURIComponent t ++ "/" else ""
  | none => ""

/-- What the serialised form of a parsed URL writes for one character of the
query: an apostrophe becomes `%27`. -/
def hrefQueryChar (c : Char) : List Char :=
  if c = Char.ofNat 39 then ['%', '2', '7'] else [c]

/-- The `href` of a parsed URL, for a URL in which nothing but apostrophes of
the query (what follows the first `?`) is rewritten. -/
def hrefOf (url : String) : String :=
  String.mk (url.data.takeWhile (fun c => decide (c ≠ '?'))
    ++ (url.data.dropWhile (fun c => decide (c ≠ '?'))).flatMap hrefQueryChar)

/-- A host whose validator accepts what starts with `http://` or `https://`
and hands back the `href` of the parsed URL, as a validator built on a URL
parser does. -/
def normalisingHost : Host :=
  { assertAbsoluteHttpOrHttpsUrl := fun s =>
      if "http://".data.isPrefixOf s.data || "https://".data.isPrefixOf s.data then
        .ok (hrefOf s)
      else .error (.userError "URL must start with \"http://\" or \"https://\". Invalid value: %s")
    tryParseJson := fun _ => .undefined }

/-- An element as the constructor leaves it, whose mode holds an apostrophe,
a character `encodeURIComponent` leaves alone. -/
def apostrophePlayer : AmpNexxtvPlayer :=
  new [("data-mediaid", "PTPFEC4U184674"), ("data-client", "583"), ("data-mode", "a'b")]

/-- The five names of the inbound vocabulary. -/
def commandNames : List String :=
  ["onload", "play", "pause", "mute", "unmute"]

/-- The event the specification pairs with each inbound command. -/
def specEventOf (name : String) : Option VideoEvents :=
  if name = "onload" then some .LOAD
  else if name = "play" then some .PLAY
  else if name = "pause" then some .PAUSE
  else if name = "mute" then some .MUTED
  else if name = "unmute" then some .UNMUTED
  else none

/-- The inbound command an event stands for (none stands for `VISIBILITY`,
which `viewportCallback` dispatches). -/
def commandOf (e : VideoEvents) : String :=
  match e with
  | .LOAD => "onload"
  | .PLAY => "play"
  | .PAUSE => "pause"
  | .MUTED => "mute"
  | .UNMUTED => "unmute"
  | .VISIBILITY => ""

/-- The data `handleNexxMessages_` works on: the event's data when it is an
object, what it parses to otherwise. -/
def messageData (host : Host) (eventData : JsValue) : JsValue :=
  if isObject eventData then eventData else host.tryParseJson eventData

/-- The events dispatched on the element so far, oldest first. -/
def dispatched (self : AmpNexxtvPlayer) : List VideoEvents :=
  self.effects.filterMap fun e =>
    match e with
    | .dispatchCustomEvent name _ => some name
    | _ => none

/-- The messages posted to the iframe so far, oldest first, each with its
target origin. -/
def posted (self : AmpNexxtvPlayer) : List (String × String) :=
  self.effects.filterMap fun e =>
    match e with
    | .postMessage message targetOrigin => some (message, targetOrigin)
    | _ => none

/-- The calls of the resolver so far, oldest first, each with whether it
settled the promise. -/
def resolverCalls (self : AmpNexxtvPlayer) : List Bool :=
  self.effects.filterMap fun e =>
    match e with
    | .resolve settled => some settled
    | _ => none

/-- The example element after `buildCallback`. -/
def builtPlayer : AmpNexxtvPlayer :=
  run exampleHost [.buildCallback] examplePlayer

/-- The example element after build, layout, the load of the iframe, and
`unlayoutCallback`. -/
def unlaidPlayer : AmpNexxtvPlayer :=
  run exampleHost [.buildCallback, .layoutCallback, .iframeLoaded, .unlayoutCallback]
    examplePlayer

/-- The state of the readiness promise, `none` before `buildCallback`. -/
def readyState (self : AmpNexxtvPlayer) : Option PromiseState :=
  self.playerReadyPromise_.map fun p => p.state

/-- Two states of the element agree on the readiness promise and its
resolver, on the calls of the resolver and the posted messages so far, and on
the queued microtasks. -/
def SameReady (a b : AmpNexxtvPlayer) : Prop :=
  b.playerReadyPromise_ = a.playerReadyPromise_
  ∧ b.playerReadyResolver_ = a.playerReadyResolver_
  ∧ resolverCalls b = resolverCalls a
  ∧ posted b = posted a
  ∧ b.microtasks = a.microtasks

/-- The invariant of an element whose readiness promise is the `k`-th one
made: the promise and its resolver are in place, and either the promise is
pending, the resolver has not been called, nothing has been posted and no
reaction is queued, or the promise is fulfilled and of the calls of the
resolver the first one settled it and no later one did. -/
def ReadyInv (k : Nat) (self : AmpNexxtvPlayer) : Prop :=
  ∃ p, self.playerReadyPromise_ = some p ∧ p.serial = k
    ∧ self.playerReadyResolver_ = some k
    ∧ ((p.state = .pending ∧ resolverCalls self = [] ∧ posted self = []
          ∧ self.microtasks = [])
      ∨ (p.state = .fulfilled ∧ ∃ n, resolverCalls self = true :: List.replicate n false))

/-- The calls that call the resolver: the load of the iframe, and a message
whose `cmd` compares equal to `onload`. -/
def invokesResolver (host : Host) (c : Call) : Prop :=
  c = .iframeLoaded
  ∨ ∃ eventData, c = .message eventData
      ∧ cmdEquals (messageData host eventData) "onload" = .ok true

/-! ## The URL -/

theorem hexDigitUpper_unescaped (n : Nat) : uriUnescaped (hexDigitUpper n) = true := by
  have h : n % 16 < 16 := Nat.mod_lt _ (by norm_num)
  unfold hexDigitUpper
  generalize n % 16 = k at h
  interval_cases k <;> decide

theorem mem_encodeURIChar {x c : Char} (h : x ∈ encodeURIChar c) :
    uriUnescaped x = true ∨ x = '%' := by
  unfold encodeURIChar at h
  split at h
  · simp at h; subst h; left; assumption
  · simp only [List.mem_flatMap] at h
    obtain ⟨b, -, hb⟩ := h
    simp [percentOctet] at hb
    rcases hb with hb | hb | hb
    · right; exact hb
    · left; rw [hb]; exact hexDigitUpper_unescaped _
    · left; rw [hb]; exact hexDigitUpper_unescaped _

theorem count_encodeURIComponent (s : String) (ch : Char)
    (h1 : uriUnescaped ch = false) (h2 : ch ≠ '%') :
    (encodeURIComponent s).data.count ch = 0 := by
  rw [List.count_eq_zero]
  intro hmem
  simp only [encodeURIComponent, List.mem_flatMap] at hmem
  obtain ⟨c, -, hc⟩ := hmem
  rcases mem_encodeURIChar hc with h | h
  · rw [h1] at h; exact Bool.noConfusion h
  · exact h2 h

/-- The string `getVideoIframeSrc_` hands to the validator on an element
with identifiers `c` and `m`. -/
theorem builtSrc_eq_spec (self : AmpNexxtvPlayer) (c m : String) :
    (let start := orElse (getAttribute self "data-seek-to") "0"
     let mode := orElse (getAttribute self "data-mode") "static"
     let streamtype := orElse (getAttribute self "data-streamtype") "video"
     let origin := orElse (getAttribute self "data-origin") "https://embed.nexx.cloud/"
     let src := ""
     let src := src ++ origin
     let src := if streamtype ≠ "video" then src ++ (encodeURIComponent streamtype ++ "/") else src
     let src := src ++ (encodeURIComponent c ++ "/")
     let src := src ++ encodeURIComponent m
     let src := src ++ ("?start=" ++ encodeURIComponent start)
     src ++ ("&datamode=" ++ encodeURIComponent mode ++ "&amp=1"))
    = specVideoIframeSrc self c m := by
  simp only [specVideoIframeSrc, orElse]
  cases getAttribute self "data-seek-to" <;> cases getAttribute self "data-mode" <;>
    cases getAttribute self "data-streamtype" <;> cases getAttribute self "data-origin" <;>
    simp [String.append_assoc] <;> (repeat' split) <;> simp_all [String.append_assoc]

theorem getVideoIframeSrc_unfold (host : Host) (self : AmpNexxtvPlayer) (c m : String)
    (hcache : self.videoIframeSrc_ = none)
    (hm : getAttribute self "data-mediaid" = some m) (hm0 : m ≠ "")
    (hc : getAttribute self "data-client" = some c) (hc0 : c ≠ "") :
    getVideoIframeSrc_ host self =
      match host.assertAbsoluteHttpOrHttpsUrl (specVideoIframeSrc self c m) with
      | .error e => (.error e, self)
      | .ok url => (.ok url, { self with videoIframeSrc_ := some url }) := by
  have h := builtSrc_eq_spec self c m
  simp only [] at h
  simp only [getVideoIframeSrc_, hcache, truthy, hm, hc, userAssert, hm0, hc0, if_false, h]
  simp

/-- C1 as stated fails: the element whose mode is `a'b` has no cached URL
and both identifiers, its assembled URL is the formula's string and passes
the validator of a host that hands back the `href` of the parsed URL, and
the result is that `href`, with `%27` for the apostrophe, not the formula's
string. -/
theorem getVideoIframeSrc_not_formula :
    apostrophePlayer.videoIframeSrc_ = none
    ∧ getAttribute apostrophePlayer "data-mediaid" = some "PTPFEC4U184674"
    ∧ getAttribute apostrophePlayer "data-client" = some "583"
    ∧ specVideoIframeSrc apostrophePlayer "583" "PTPFEC4U184674"
        = "https://embed.nexx.cloud/583/PTPFEC4U184674?start=0&datamode=a'b&amp=1"
    ∧ (getVideoIframeSrc_ normalisingHost apostrophePlayer).1
        = .ok "https://embed.nexx.cloud/583/PTPFEC4U184674?start=0&datamode=a%27b&amp=1"
    ∧ (getVideoIframeSrc_ normalisingHost apostrophePlayer).1
        ≠ .ok (specVideoIframeSrc apostrophePlayer "583" "PTPFEC4U184674") :=
  ⟨by decide, by decide, by decide, by decide, by rfl,
    fun h => absurd (Except.ok.inj h) (by decide)⟩

/-- C1, amended: on an element with no cached URL, with non-empty media id
`m` and client `c`, the string handed to the validator is the formula's
origin ++ seg ++ enc(c) ++ "/" ++ enc(m) ++ "?start=" ++ enc(start) ++
"&datamode=" ++ enc(mode) ++ "&amp=1", and when the validator accepts it
`getVideoIframeSrc_` returns and caches the URL the validator hands back for
it, which is the formula's string itself whenever the validator hands its
argument back unchanged. -/
theorem getVideoIframeSrc_validated_formula (host : Host) (self : AmpNexxtvPlayer)
    (c m url : String)
    (hcache : self.videoIframeSrc_ = none)
    (hm : getAttribute self "data-mediaid" = some m) (hm0 : m ≠ "")
    (hc : getAttribute self "data-client" = some c) (hc0 : c ≠ "")
    (hpass : host.assertAbsoluteHttpOrHttpsUrl (specVideoIframeSrc self c m) = .ok url) :
    getVideoIframeSrc_ host self = (.ok url, { self with videoIframeSrc_ := some url })
    ∧ (url = specVideoIframeSrc self c m →
        getVideoIframeSrc_ host self =
          (.ok (specVideoIframeSrc self c m),
            { self with videoIframeSrc_ := some (specVideoIframeSrc self c m) })) := by
  have h : getVideoIframeSrc_ host self
      = (.ok url, { self with videoIframeSrc_ := some url }) := by
    rw [getVideoIframeSrc_unfold host self c m hcache hm hm0 hc hc0, hpass]
  exact ⟨h, fun e => e ▸ h⟩

/-- C1, amended, at the example element under a validator that hands its
argument back: the URL returned and cached is the formula's string,
`https://embed.nexx.cloud/audio/583/PTPFEC4U184674?start=0&datamode=static&amp=1`. -/
theorem getVideoIframeSrc_validated_formula_witness :
    specVideoIframeSrc examplePlayer "583" "PTPFEC4U184674"
      = "https://embed.nexx.cloud/audio/583/PTPFEC4U184674?start=0&datamode=static&amp=1"
    ∧ getVideoIframeSrc_ exampleHost examplePlayer =
      (.ok (specVideoIframeSrc examplePlayer "583" "PTPFEC4U184674"),
        { examplePlayer with
          videoIframeSrc_ := some (specVideoIframeSrc examplePlayer "583" "PTPFEC4U184674") }) :=
  ⟨by decide, (getVideoIframeSrc_validated_formula exampleHost examplePlayer "583"
    "PTPFEC4U184674" (specVideoIframeSrc examplePlayer "583" "PTPFEC4U184674")
    (by decide) (by decide) (by decide) (by decide) (by decide) (by rfl)).1⟩

theorem userAssert_absentOrEmpty {v : Option String} (h : absentOrEmpty v) (msg : String) :
    userAssert v msg = .error (.userError msg) := by
  rcases h with h | h <;> simp [h, userAssert]

theorem userAssert_present {v : Option String} (h : ¬ absentOrEmpty v) (msg : String) :
    ∃ s, userAssert v msg = .ok s := by
  cases v with
  | none => exact absurd (Or.inl rfl) h
  | some s =>
    by_cases hs : s = ""
    · subst hs; exact absurd (Or.inr rfl) h
    · exact ⟨s, by simp [userAssert, hs]⟩

/-- C2: on an element with no cached URL whose media id or client is absent
or empty, `getVideoIframeSrc_`, `preconnectCallback` and `layoutCallback`
throw the user assertion error, that of the media id when the media id is
missing (whatever the client is) and that of the client otherwise, and leave
the element as it was, so that `videoIframeSrc_` stays `null`. -/
theorem getVideoIframeSrc_requires_ids (host : Host) (self : AmpNexxtvPlayer)
    (opt_onLayout : Option Bool)
    (hcache : self.videoIframeSrc_ = none)
    (hmissing : absentOrEmpty (getAttribute self "data-mediaid")
      ∨ absentOrEmpty (getAttribute self "data-client")) :
    getVideoIframeSrc_ host self =
        (.error (if absentOrEmpty (getAttribute self "data-mediaid") then mediaIdRequired
          else clientRequired), self)
      ∧ preconnectCallback host opt_onLayout self =
        (.error (if absentOrEmpty (getAttribute self "data-mediaid") then mediaIdRequired
          else clientRequired), self)
      ∧ layoutCallback host self =
        (.error (if absentOrEmpty (getAttribute self "data-mediaid") then mediaIdRequired
          else clientRequired), self)
      ∧ (getVideoIframeSrc_ host self).2.videoIframeSrc_ = none := by
  by_cases hmed : absentOrEmpty (getAttribute self "data-mediaid")
  · have hg : getVideoIframeSrc_ host self = (.error mediaIdRequired, self) := by
      simp [getVideoIframeSrc_, hcache, truthy, userAssert_absentOrEmpty hmed, mediaIdRequired]
    rw [if_pos hmed]
    refine ⟨hg, ?_, ?_, ?_⟩
    · simp [preconnectCallback, hg]
    · simp [layoutCallback, hg]
    · simp [hg, hcache]
  · have hcl : absentOrEmpty (getAttribute self "data-client") := hmissing.resolve_left hmed
    obtain ⟨s, hs⟩ := userAssert_present hmed
      "The data-mediaid attribute is required for <amp-nexxtv-player> %s"
    have hg : getVideoIframeSrc_ host self = (.error clientRequired, self) := by
      simp [getVideoIframeSrc_, hcache, truthy, hs, userAssert_absentOrEmpty hcl, clientRequired]
    rw [if_neg hmed]
    refine ⟨hg, ?_, ?_, ?_⟩
    · simp [preconnectCallback, hg]
    · simp [layoutCallback, hg]
    · simp [hg, hcache]

/-- C2 on an element with neither identifier: the media-id error is the one
thrown, and nothing is cached. -/
theorem getVideoIframeSrc_requires_ids_witness :
    getVideoIframeSrc_ exampleHost (new [("data-mode", "static")])
        = (.error mediaIdRequired, new [("data-mode", "static")])
      ∧ preconnectCallback exampleHost none (new [("data-mode", "static")])
        = (.error mediaIdRequired, new [("data-mode", "static")])
      ∧ layoutCallback exampleHost (new [("data-mode", "static")])
        = (.error mediaIdRequired, new [("data-mode", "static")])
      ∧ (getVideoIframeSrc_ exampleHost (new [("data-mode", "static")])).2.videoIframeSrc_
        = none :=
  getVideoIframeSrc_requires_ids exampleHost (new [("data-mode", "static")])
    none (by decide) (Or.inl (Or.inl (by decide)))

theorem count_append_data (s t : String) (ch : Char) :
    (s ++ t).data.count ch = s.data.count ch + t.data.count ch := by
  rw [String.data_append, List.count_append]

theorem spec_eq_pieces (self : AmpNexxtvPlayer) (c m : String) :
    specVideoIframeSrc self c m =
      orElse (getAttribute self "data-origin") "https://embed.nexx.cloud/" ++ specSegment self
        ++ encodeURIComponent c ++ "/" ++ encodeURIComponent m
        ++ "?start=" ++ encodeURIComponent (orElse (getAttribute self "data-seek-to") "0")
        ++ "&datamode=" ++ encodeURIComponent (orElse (getAttribute self "data-mode") "static")
        ++ "&amp=1" := by
  rfl

theorem count_seg_of_reserved (self : AmpNexxtvPlayer) (ch : Char)
    (h1 : uriUnescaped ch = false) (h2 : ch ≠ '%') (h3 : ch ≠ '/') :
    (specSegment self).data.count ch = 0 := by
  unfold specSegment
  split
  · split
    · rw [count_append_data, count_encodeURIComponent _ _ h1 h2]
      simp [List.count_cons, h3.symm]
    · rfl
  · rfl

theorem count_seg_slash (self : AmpNexxtvPlayer) :
    (specSegment self).data.count '/' =
      (if absentOrEmpty (getAttribute self "data-streamtype")
          ∨ getAttribute self "data-streamtype" = some "video" then 0 else 1) := by
  unfold specSegment
  cases hst : getAttribute self "data-streamtype" with
  | none => simp [absentOrEmpty]
  | some t =>
    by_cases h1 : t = ""
    · simp [h1, absentOrEmpty]
    · by_cases h2 : t = "video"
      · simp [h2, absentOrEmpty]
      · have hk : "/".data.count '/' = 1 := by decide
        simp only [h1, h2, ne_eq, not_false_eq_true, and_self, if_true, count_append_data,
          count_encodeURIComponent _ '/' (by decide) (by decide), hk]
        simp [h1, h2, absentOrEmpty]

theorem count_pieces (ch : Char) (s1 s2 s3 s4 s5 s6 s7 s8 s9 s10 : String) :
    (s1 ++ s2 ++ s3 ++ s4 ++ s5 ++ s6 ++ s7 ++ s8 ++ s9 ++ s10).data.count ch =
      s1.data.count ch + s2.data.count ch + s3.data.count ch + s4.data.count ch
        + s5.data.count ch + s6.data.count ch + s7.data.count ch + s8.data.count ch
        + s9.data.count ch + s10.data.count ch := by
  simp only [count_append_data]

/-- C9: on an element with no `data-origin`, no cached URL and non-empty
media id and client, whatever the stream type, seek offset and mode are, the
string `getVideoIframeSrc_` builds and hands to the validator starts with
`https://embed.nexx.cloud/`, ends with `&amp=1`, holds one `?`, two `&` and
no `#`, and has after the origin one `/` when the stream type is absent,
empty or `video` and two otherwise. -/
theorem getVideoIframeSrc_structure (self : AmpNexxtvPlayer) (c m : String)
    (hcache : self.videoIframeSrc_ = none)
    (horigin : getAttribute self "data-origin" = none)
    (hm : getAttribute self "data-mediaid" = some m) (hm0 : m ≠ "")
    (hc : getAttribute self "data-client" = some c) (hc0 : c ≠ "") :
    ∃ src rest front : String,
      (∀ host : Host, getVideoIframeSrc_ host self =
        match host.assertAbsoluteHttpOrHttpsUrl src with
        | .error e => (.error e, self)
        | .ok url => (.ok url, { self with videoIframeSrc_ := some url }))
      ∧ src = "https://embed.nexx.cloud/" ++ rest
      ∧ src = front ++ "&amp=1"
      ∧ src.data.count '?' = 1
      ∧ src.data.count '&' = 2
      ∧ src.data.count '#' = 0
      ∧ rest.data.count '/' =
        (if absentOrEmpty (getAttribute self "data-streamtype")
            ∨ getAttribute self "data-streamtype" = some "video" then 1 else 2) := by
  have hq := fun s => count_encodeURIComponent s '?' (by decide) (by decide)
  have ha := fun s => count_encodeURIComponent s '&' (by decide) (by decide)
  have hh := fun s => count_encodeURIComponent s '#' (by decide) (by decide)
  have hs := fun s => count_encodeURIComponent s '/' (by decide) (by decide)
  refine ⟨specVideoIframeSrc self c m, ?_, ?_,
    fun host => getVideoIframeSrc_unfold host self c m hcache hm hm0 hc hc0,
    ?_, ?_, ?_, ?_, ?_, ?_⟩
  · exact specSegment self ++ encodeURIComponent c ++ "/" ++ encodeURIComponent m
      ++ "?start=" ++ encodeURIComponent (orElse (getAttribute self "data-seek-to") "0")
      ++ "&datamode=" ++ encodeURIComponent (orElse (getAttribute self "data-mode") "static")
      ++ "&amp=1"
  · exact "https://embed.nexx.cloud/" ++ specSegment self ++ encodeURIComponent c ++ "/" ++ encodeURIComponent m
      ++ "?start=" ++ encodeURIComponent (orElse (getAttribute self "data-seek-to") "0")
      ++ "&datamode=" ++ encodeURIComponent (orElse (getAttribute self "data-mode") "static")
  · rw [spec_eq_pieces, horigin]
    simp only [orElse, String.append_assoc]
  · rw [spec_eq_pieces, horigin]
    simp only [orElse, String.append_assoc]
  · rw [spec_eq_pieces, horigin]
    rw [count_pieces, hq, hq, hq, hq,
      count_seg_of_reserved self '?' (by decide) (by decide) (by decide)]
    decide
  · rw [spec_eq_pieces, horigin]
    rw [count_pieces, ha, ha, ha, ha,
      count_seg_of_reserved self '&' (by decide) (by decide) (by decide)]
    decide
  · rw [spec_eq_pieces, horigin]
    rw [count_pieces, hh, hh, hh, hh,
      count_seg_of_reserved self '#' (by decide) (by decide) (by decide)]
    decide
  · have hp := count_pieces '/' "" (specSegment self) (encodeURIComponent c) "/"
      (encodeURIComponent m) "?start="
      (encodeURIComponent (orElse (getAttribute self "data-seek-to") "0")) "&datamode="
      (encodeURIComponent (orElse (getAttribute self "data-mode") "static")) "&amp=1"
    rw [hs, hs, hs, hs, count_seg_slash] at hp
    have e0 : "" ++ specSegment self = specSegment self := by simp
    rw [e0] at hp
    rw [hp]
    split <;> decide

/-! ## What each method leaves alone -/

theorem getVideoIframeSrc_of_cached (host : Host) (self : AmpNexxtvPlayer) (u : String)
    (h : self.videoIframeSrc_ = some u) (hu : u ≠ "") :
    getVideoIframeSrc_ host self = (.ok u, self) := by
  simp [getVideoIframeSrc_, h, truthy, hu]

theorem getVideoIframeSrc_ok_caches (host : Host) (self after : AmpNexxtvPlayer) (u : String)
    (h : getVideoIframeSrc_ host self = (.ok u, after)) :
    after.videoIframeSrc_ = some u := by
  unfold getVideoIframeSrc_ at h
  split at h
  · rename_i ht
    simp only [Prod.mk.injEq, Except.ok.injEq] at h
    obtain ⟨h1, h2⟩ := h
    subst h2
    cases hv : self.videoIframeSrc_ with
    | none => simp [truthy, hv] at ht
    | some s => simp [hv] at h1; rw [h1]
  · split at h
    · simp at h
    · split at h
      · simp at h
      · simp only [] at h
        split at h
        · simp at h
        · simp only [Prod.mk.injEq, Except.ok.injEq] at h
          obtain ⟨h1, h2⟩ := h
          subst h2
          simp [h1]

/-- The shapes of what `handleNexxMessages_` does: nothing, a throw that
changes nothing, one dispatched event, or the `onload` branch. -/
theorem handleNexxMessages_shape (host : Host) (eventData : JsValue) (self : AmpNexxtvPlayer) :
    handleNexxMessages_ host eventData self = (.ok (), self)
    ∨ (∃ e, handleNexxMessages_ host eventData self = (.error e, self))
    ∨ (∃ ev, handleNexxMessages_ host eventData self
        = (.ok (), dispatchCustomEvent self ev none))
    ∨ handleNexxMessages_ host eventData self
        = callPlayerReadyResolver_ (dispatchCustomEvent self .LOAD none) := by
  unfold handleNexxMessages_
  simp only []
  split
  · left; rfl
  · split
    · right; left; exact ⟨_, rfl⟩
    · right; right; right; rfl
    · split
      · right; left; exact ⟨_, rfl⟩
      · right; right; left; exact ⟨_, rfl⟩
      · split
        · right; left; exact ⟨_, rfl⟩
        · right; right; left; exact ⟨_, rfl⟩
        · split
          · right; left; exact ⟨_, rfl⟩
          · right; right; left; exact ⟨_, rfl⟩
          · split
            · right; left; exact ⟨_, rfl⟩
            · right; right; left; exact ⟨_, rfl⟩
            · left; rfl

theorem callPlayerReadyResolver_videoIframeSrc_ (self : AmpNexxtvPlayer) :
    (callPlayerReadyResolver_ self).2.videoIframeSrc_ = self.videoIframeSrc_ := by
  unfold callPlayerReadyResolver_
  split
  · rfl
  · split
    · split <;> rfl
    · rfl

theorem settle_videoIframeSrc_ {α : Type} (o : Outcome α) :
    (settle o).videoIframeSrc_ = o.2.videoIframeSrc_ := by
  unfold settle
  split <;> rfl

theorem playerReadyPromiseThen_videoIframeSrc_ (command : String) (self : AmpNexxtvPlayer) :
    (playerReadyPromiseThen command self).2.videoIframeSrc_ = self.videoIframeSrc_ := by
  unfold playerReadyPromiseThen
  split
  · rfl
  · split <;> rfl

theorem runMicrotasks_videoIframeSrc_ (self : AmpNexxtvPlayer) :
    (runMicrotasks self).videoIframeSrc_ = self.videoIframeSrc_ := by
  unfold runMicrotasks
  have key : ∀ (l : List String) (w : AmpNexxtvPlayer),
      (l.foldl (fun w command => settle (sendCommand_ command w)) w).videoIframeSrc_
        = w.videoIframeSrc_ := by
    intro l
    induction l with
    | nil => intro w; rfl
    | cons a l ih =>
      intro w
      rw [List.foldl_cons, ih, settle_videoIframeSrc_]
      unfold sendCommand_
      split <;> rfl
  rw [key]

/-- No call clears or replaces a cached URL. -/
theorem step_keeps_cache (host : Host) (c : Call) (self : AmpNexxtvPlayer) (u : String)
    (h : self.videoIframeSrc_ = some u) (hu : u ≠ "") :
    (step host c self).videoIframeSrc_ = some u := by
  cases c with
  | preconnectCallback o =>
    simp [step, preconnectCallback, getVideoIframeSrc_of_cached host self u h hu, settle,
      preconnectUrl, h]
  | buildCallback => simp [step, buildCallback, settle, h]
  | viewportCallback v => simp [step, viewportCallback, settle, dispatchCustomEvent, h]
  | layoutCallback =>
    simp only [step, layoutCallback, getVideoIframeSrc_of_cached host self u h hu]
    split <;> simp [settle, h]
  | iframeLoaded =>
    simp only [step, layoutCallbackThen, settle_videoIframeSrc_,
      callPlayerReadyResolver_videoIframeSrc_]
    exact h
  | pauseCallback =>
    simp only [step, pauseCallback, settle_videoIframeSrc_]
    split
    · rw [pause, playerReadyPromiseThen_videoIframeSrc_]; exact h
    · exact h
  | unlayoutCallback =>
    simp only [step, unlayoutCallback, settle_videoIframeSrc_]
    split <;> split <;> simp_all
  | message d =>
    simp only [step, settle_videoIframeSrc_]
    rcases handleNexxMessages_shape host d self with hs | ⟨e, hs⟩ | ⟨ev, hs⟩ | hs
    · rw [hs]; exact h
    · rw [hs]; exact h
    · rw [hs]; exact h
    · rw [hs, callPlayerReadyResolver_videoIframeSrc_]; exact h
  | play => simp only [step, play, settle_videoIframeSrc_, playerReadyPromiseThen_videoIframeSrc_, h]
  | pause => simp only [step, pause, settle_videoIframeSrc_, playerReadyPromiseThen_videoIframeSrc_, h]
  | mute => simp only [step, mute, settle_videoIframeSrc_, playerReadyPromiseThen_videoIframeSrc_, h]
  | unmute => simp only [step, unmute, settle_videoIframeSrc_, playerReadyPromiseThen_videoIframeSrc_, h]
  | microtasks => simp only [step, runMicrotasks_videoIframeSrc_, h]
  | setAttributes a => simp [step, h]

theorem run_keeps_cache (host : Host) (calls : List Call) (self : AmpNexxtvPlayer) (u : String)
    (h : self.videoIframeSrc_ = some u) (hu : u ≠ "") :
    (run host calls self).videoIframeSrc_ = some u := by
  induction calls generalizing self with
  | nil => exact h
  | cons c cs ih => exact ih _ (step_keeps_cache host c self u h hu)

/-- C6: once `getVideoIframeSrc_` has returned a URL `u`, then after any
calls whatsoever, attribute rewrites and `unlayoutCallback` included,
`videoIframeSrc_` still holds `u`, and `getVideoIframeSrc_` returns `u` and
changes nothing, under any validator and whatever the attributes now are;
`preconnectCallback` preconnects to `u` and `layoutCallback` loads `u`. -/
theorem getVideoIframeSrc_cached (host : Host) (self after : AmpNexxtvPlayer) (u : String)
    (hret : getVideoIframeSrc_ host self = (.ok u, after)) (hu : u ≠ "")
    (hostBetween : Host) (calls : List Call) (hostLater : Host) (opt_onLayout : Option Bool) :
    (run hostBetween calls after).videoIframeSrc_ = some u
    ∧ getVideoIframeSrc_ hostLater (run hostBetween calls after)
        = (.ok u, run hostBetween calls after)
    ∧ preconnectCallback hostLater opt_onLayout (run hostBetween calls after)
        = (.ok (), preconnectUrl (run hostBetween calls after) u opt_onLayout)
    ∧ (∀ iframe, (run hostBetween calls after).iframe_ = some iframe →
        ∃ laidOut, layoutCallback hostLater (run hostBetween calls after) = (.ok (), laidOut)
          ∧ laidOut.iframe_ = some { iframe with src := some u }
          ∧ laidOut.videoIframeSrc_ = some u) := by
  have h0 := getVideoIframeSrc_ok_caches host self after u hret
  have h1 := run_keeps_cache hostBetween calls after u h0 hu
  have h2 := getVideoIframeSrc_of_cached hostLater _ u h1 hu
  refine ⟨h1, h2, ?_, ?_⟩
  · simp [preconnectCallback, h2]
  · intro iframe hif
    simp [layoutCallback, h2, hif, h1]

/-! ## Inbound messages -/

theorem cmdEquals_string (props : List (String × JsValue)) (name other : String)
    (hcmd : props.lookup "cmd" = some (.string name)) :
    cmdEquals (.object props) other = .ok (decide (name = other)) := by
  simp [cmdEquals, JsValue.get, hcmd, JsValue.looseEquals]

theorem handleNexxMessages_eq (host : Host) (eventData : JsValue) (self : AmpNexxtvPlayer)
    (props : List (String × JsValue)) (h : messageData host eventData = .object props) :
    handleNexxMessages_ host eventData self =
      match cmdEquals (.object props) "onload" with
      | .error e => (.error e, self)
      | .ok true => callPlayerReadyResolver_ (dispatchCustomEvent self .LOAD none)
      | .ok false =>
      match cmdEquals (.object props) "play" with
      | .error e => (.error e, self)
      | .ok true => (.ok (), dispatchCustomEvent self .PLAY none)
      | .ok false =>
      match cmdEquals (.object props) "pause" with
      | .error e => (.error e, self)
      | .ok true => (.ok (), dispatchCustomEvent self .PAUSE none)
      | .ok false =>
      match cmdEquals (.object props) "mute" with
      | .error e => (.error e, self)
      | .ok true => (.ok (), dispatchCustomEvent self .MUTED none)
      | .ok false =>
      match cmdEquals (.object props) "unmute" with
      | .error e => (.error e, self)
      | .ok true => (.ok (), dispatchCustomEvent self .UNMUTED none)
      | .ok false => (.ok (), self) := by
  unfold messageData at h
  unfold handleNexxMessages_
  simp only [h]

theorem dispatched_dispatchCustomEvent (self : AmpNexxtvPlayer) (ev : VideoEvents)
    (detail : Option Bool) :
    dispatched (dispatchCustomEvent self ev detail) = dispatched self ++ [ev] := by
  simp [dispatched, dispatchCustomEvent, List.filterMap_append]

theorem dispatched_callPlayerReadyResolver_ (self : AmpNexxtvPlayer) :
    dispatched (callPlayerReadyResolver_ self).2 = dispatched self := by
  unfold callPlayerReadyResolver_
  split
  · rfl
  · split
    · split <;> simp [dispatched, List.filterMap_append]
    · simp [dispatched, List.filterMap_append]

theorem specEventOf_name (name : String) (e : VideoEvents) (h : specEventOf name = some e) :
    name = commandOf e := by
  unfold specEventOf at h
  split_ifs at h with h1 h2 h3 h4 h5 <;> cases h <;> simp [commandOf, *]

/-- C4: a message whose data, an object or what the event's data parses to,
has `cmd` equal to one of the five names makes `handleNexxMessages_` dispatch
one event, the one paired with the name; the pairing sends different names
to different events; every name but `onload` does nothing else, and `onload`
goes on to call the resolver, which fulfils a pending readiness promise. -/
theorem handleNexxMessages_vocabulary (host : Host) (eventData : JsValue)
    (self : AmpNexxtvPlayer) (props : List (String × JsValue)) (name : String)
    (ev : VideoEvents)
    (hdata : messageData host eventData = .object props)
    (hcmd : props.lookup "cmd" = some (.string name))
    (hev : specEventOf name = some ev) :
    dispatched (handleNexxMessages_ host eventData self).2 = dispatched self ++ [ev]
    ∧ (name ≠ "onload" →
        handleNexxMessages_ host eventData self = (.ok (), dispatchCustomEvent self ev none))
    ∧ (name = "onload" →
        handleNexxMessages_ host eventData self
          = callPlayerReadyResolver_ (dispatchCustomEvent self .LOAD none)
        ∧ ∀ p, self.playerReadyPromise_ = some p → self.playerReadyResolver_ = some p.serial →
            p.state = .pending →
            (handleNexxMessages_ host eventData self).2.playerReadyPromise_
              = some { p with state := .fulfilled, reactions := [] })
    ∧ (∀ n1 n2 e, specEventOf n1 = some e → specEventOf n2 = some e → n1 = n2) := by
  have hh := handleNexxMessages_eq host eventData self props hdata
  simp only [cmdEquals_string props name _ hcmd] at hh
  have hinj : ∀ n1 n2 e, specEventOf n1 = some e → specEventOf n2 = some e → n1 = n2 :=
    fun n1 n2 e h1 h2 => (specEventOf_name n1 e h1).trans (specEventOf_name n2 e h2).symm
  unfold specEventOf at hev
  by_cases h1 : name = "onload"
  · subst h1
    simp at hev
    subst hev
    simp only [decide_True] at hh
    refine ⟨?_, fun h => absurd rfl h, fun _ => ⟨hh, ?_⟩, hinj⟩
    · rw [hh, dispatched_callPlayerReadyResolver_, dispatched_dispatchCustomEvent]
    · intro p hp hr hs
      rw [hh]
      simp [callPlayerReadyResolver_, dispatchCustomEvent, hp, hr, hs]
  · by_cases h2 : name = "play"
    · subst h2
      simp at hev
      subst hev
      have hh2 : handleNexxMessages_ host eventData self
          = (.ok (), dispatchCustomEvent self .PLAY none) := by
        rw [hh]; simp
      exact ⟨by rw [hh2, dispatched_dispatchCustomEvent], fun _ => hh2,
        fun h => absurd h h1, hinj⟩
    · by_cases h3 : name = "pause"
      · subst h3
        simp at hev
        subst hev
        have hh2 : handleNexxMessages_ host eventData self
            = (.ok (), dispatchCustomEvent self .PAUSE none) := by
          rw [hh]; simp
        exact ⟨by rw [hh2, dispatched_dispatchCustomEvent], fun _ => hh2,
          fun h => absurd h h1, hinj⟩
      · by_cases h4 : name = "mute"
        · subst h4
          simp at hev
          subst hev
          have hh2 : handleNexxMessages_ host eventData self
              = (.ok (), dispatchCustomEvent self .MUTED none) := by
            rw [hh]; simp
          exact ⟨by rw [hh2, dispatched_dispatchCustomEvent], fun _ => hh2,
            fun h => absurd h h1, hinj⟩
        · by_cases h5 : name = "unmute"
          · subst h5
            simp at hev
            subst hev
            have hh2 : handleNexxMessages_ host eventData self
                = (.ok (), dispatchCustomEvent self .UNMUTED none) := by
              rw [hh]; simp
            exact ⟨by rw [hh2, dispatched_dispatchCustomEvent], fun _ => hh2,
              fun h => absurd h h1, hinj⟩
          · simp [h1, h2, h3, h4, h5] at hev

/-- C4 at a message whose data is the text of the `pause` command on the
built example element: it parses to an object, and `PAUSE` is dispatched. -/
theorem handleNexxMessages_vocabulary_witness :
    dispatched (handleNexxMessages_ exampleHost (.string (stringifyCmd "pause")) builtPlayer).2
      = dispatched builtPlayer ++ [VideoEvents.PAUSE]
    ∧ ("pause" ≠ "onload" →
        handleNexxMessages_ exampleHost (.string (stringifyCmd "pause")) builtPlayer
          = (.ok (), dispatchCustomEvent builtPlayer .PAUSE none))
    ∧ ("pause" = "onload" →
        handleNexxMessages_ exampleHost (.string (stringifyCmd "pause")) builtPlayer
          = callPlayerReadyResolver_ (dispatchCustomEvent builtPlayer .LOAD none)
        ∧ ∀ p, builtPlayer.playerReadyPromise_ = some p →
            builtPlayer.playerReadyResolver_ = some p.serial → p.state = .pending →
            (handleNexxMessages_ exampleHost (.string (stringifyCmd "pause"))
                builtPlayer).2.playerReadyPromise_
              = some { p with state := .fulfilled, reactions := [] })
    ∧ (∀ n1 n2 e, specEventOf n1 = some e → specEventOf n2 = some e → n1 = n2) :=
  handleNexxMessages_vocabulary exampleHost (.string (stringifyCmd "pause")) builtPlayer
    [("cmd", .string "pause")] "pause" .PAUSE (by rfl) (by rfl) (by rfl)

/-- C7 as stated fails: the object whose `cmd` is the array holding the
string `play` has a `cmd` that is none of the five names, and since `==`
converts the array to the string `play`, `handleNexxMessages_` dispatches
`PLAY`. -/
theorem handleNexxMessages_array_cmd_dispatches :
    isObject (.object [("cmd", .array [.string "play"])]) = true
    ∧ (∀ name, JsValue.array [.string "play"] ≠ JsValue.string name)
    ∧ handleNexxMessages_ exampleHost (.object [("cmd", .array [.string "play"])]) builtPlayer
        = (.ok (), dispatchCustomEvent builtPlayer .PLAY none)
    ∧ dispatched (handleNexxMessages_ exampleHost (.object [("cmd", .array [.string "play"])])
        builtPlayer).2 = [VideoEvents.PLAY] :=
  ⟨rfl, fun _ h => JsValue.noConfusion h, rfl, by decide⟩

theorem looseEquals_primitive (cmd : JsValue) (name : String)
    (hcmd : cmd = .undefined ∨ cmd = .null ∨ (∃ b, cmd = .boolean b) ∨ (∃ t, cmd = .number t)
      ∨ ∃ s, cmd = .string s ∧ s ≠ name) :
    cmd.looseEquals name = .ok false := by
  rcases hcmd with h | h | ⟨b, h⟩ | ⟨t, h⟩ | ⟨s, h, hs⟩ <;> subst h <;>
    simp [JsValue.looseEquals, *]

/-- C7, amended: `handleNexxMessages_` returns without changing anything
(no event, no call of the resolver, no posted message, every field as it
was) when the data is not an object and does not parse, and when the data is
an object whose `cmd` is absent or compares unequal, by `==`, to each of the
five names. -/
theorem handleNexxMessages_ignores (host : Host) (eventData : JsValue)
    (self : AmpNexxtvPlayer)
    (h : (isObject eventData = false ∧ host.tryParseJson eventData = .undefined)
      ∨ (∃ props, messageData host eventData = .object props ∧ props.lookup "cmd" = none)
      ∨ (∃ props cmd, messageData host eventData = .object props
          ∧ props.lookup "cmd" = some cmd
          ∧ ∀ name ∈ commandNames, cmd.looseEquals name = .ok false)) :
    handleNexxMessages_ host eventData self = (.ok (), self) := by
  rcases h with ⟨h1, h2⟩ | ⟨props, hd, hc⟩ | ⟨props, cmd, hd, hc, hne⟩
  · simp [handleNexxMessages_, h1, h2]
  · rw [handleNexxMessages_eq host eventData self props hd]
    simp [cmdEquals, JsValue.get, hc, JsValue.looseEquals]
  · rw [handleNexxMessages_eq host eventData self props hd]
    have e1 := hne "onload" (by simp [commandNames])
    have e2 := hne "play" (by simp [commandNames])
    have e3 := hne "pause" (by simp [commandNames])
    have e4 := hne "mute" (by simp [commandNames])
    have e5 := hne "unmute" (by simp [commandNames])
    simp [cmdEquals, JsValue.get, hc, e1, e2, e3, e4, e5]

/-- C7, amended, at an object whose `cmd` is the string `seek`, which every
comparison with a name finds unequal. -/
theorem handleNexxMessages_ignores_witness :
    handleNexxMessages_ exampleHost (.object [("cmd", .string "seek")]) builtPlayer
      = (.ok (), builtPlayer) :=
  handleNexxMessages_ignores exampleHost (.object [("cmd", .string "seek")]) builtPlayer
    (Or.inr (Or.inr ⟨[("cmd", .string "seek")], .string "seek", rfl, rfl,
      fun name hname => looseEquals_primitive _ name
        (Or.inr (Or.inr (Or.inr (Or.inr ⟨"seek", rfl, by
          simp only [commandNames, List.mem_cons, List.mem_singleton, List.not_mem_nil,
            or_false] at hname
          rcases hname with h | h | h | h | h <;> subst h <;> decide⟩))))⟩))

/-! ## The iframe after `unlayoutCallback` -/

/-- C8 fails on the code: after build, layout, the load of the iframe and
`unlayoutCallback`, `iframe_` is `null` while the URL stays cached and the
promise fulfilled, so `layoutCallback` throws on `this.iframe_.src = ...`,
and `play()` queues a reaction whose `sendCommand_` throws on
`this.iframe_.contentWindow`. -/
theorem iframe_null_after_unlayout :
    unlaidPlayer.iframe_ = none
    ∧ (unlayoutCallback
        (run exampleHost [.buildCallback, .layoutCallback, .iframeLoaded] examplePlayer)).1
        = .ok true
    ∧ layoutCallback exampleHost unlaidPlayer
        = (.error (.typeError "Cannot set property src of null"), unlaidPlayer)
    ∧ sendCommand_ "play" unlaidPlayer
        = (.error (.typeError "Cannot read property contentWindow of null"), unlaidPlayer)
    ∧ (run exampleHost [.play, .microtasks] unlaidPlayer).effects
        = unlaidPlayer.effects
          ++ [Effect.uncaught (.typeError "Cannot read property contentWindow of null")] :=
  ⟨by decide, by rfl, by rfl, by rfl, by decide⟩

/-- C3 fails on the code: on the element built, laid out, loaded and then
unlaid, the readiness promise is fulfilled, yet `play()` followed by a
microtask checkpoint posts no message at all, and the same call posts its
one message when `unlayoutCallback` has not run. -/
theorem play_after_unlayout_posts_nothing :
    (unlaidPlayer.playerReadyPromise_.map fun p => p.state) = some PromiseState.fulfilled
    ∧ posted unlaidPlayer = []
    ∧ posted (run exampleHost [.play, .microtasks] unlaidPlayer) = []
    ∧ posted (run exampleHost
        [.buildCallback, .layoutCallback, .iframeLoaded, .play, .microtasks] examplePlayer)
        = [(stringifyCmd "play", "*")] :=
  ⟨by decide, by decide, by decide, by decide⟩

/-! ## The readiness promise -/

theorem SameReady.refl (a : AmpNexxtvPlayer) : SameReady a a :=
  ⟨rfl, rfl, rfl, rfl, rfl⟩

theorem SameReady.trans {a b c : AmpNexxtvPlayer} (h1 : SameReady a b) (h2 : SameReady b c) :
    SameReady a c := by
  obtain ⟨a1, a2, a3, a4, a5⟩ := h1
  obtain ⟨b1, b2, b3, b4, b5⟩ := h2
  exact ⟨b1.trans a1, b2.trans a2, b3.trans a3, b4.trans a4, b5.trans a5⟩

theorem ReadyInv.of_sameReady {k : Nat} {a b : AmpNexxtvPlayer} (h : ReadyInv k a)
    (hs : SameReady a b) : ReadyInv k b := by
  obtain ⟨p, hp, hk, hr, hcase⟩ := h
  obtain ⟨s1, s2, s3, s4, s5⟩ := hs
  refine ⟨p, s1.trans hp, hk, s2.trans hr, ?_⟩
  rw [s3, s4, s5]
  exact hcase

theorem sameReady_settle {α : Type} (o : Outcome α) : SameReady o.2 (settle o) := by
  unfold settle
  split
  · exact SameReady.refl _
  · simp [SameReady, resolverCalls, posted, List.filterMap_append]

theorem sameReady_dispatchCustomEvent (self : AmpNexxtvPlayer) (ev : VideoEvents)
    (detail : Option Bool) : SameReady self (dispatchCustomEvent self ev detail) := by
  simp [SameReady, dispatchCustomEvent, resolverCalls, posted, List.filterMap_append]

theorem sameReady_getVideoIframeSrc_ (host : Host) (self : AmpNexxtvPlayer) :
    SameReady self (getVideoIframeSrc_ host self).2 := by
  unfold getVideoIframeSrc_
  split
  · exact SameReady.refl _
  · split
    · exact SameReady.refl _
    · split
      · exact SameReady.refl _
      · simp only []
        split
        · exact SameReady.refl _
        · exact ⟨rfl, rfl, rfl, rfl, rfl⟩

theorem sameReady_preconnectCallback (host : Host) (o : Option Bool) (self : AmpNexxtvPlayer) :
    SameReady self (preconnectCallback host o self).2 := by
  have h := sameReady_getVideoIframeSrc_ host self
  unfold preconnectCallback
  split
  · rename_i e w heq
    rw [heq] at h
    exact h
  · rename_i u w heq
    rw [heq] at h
    refine h.trans ?_
    simp [SameReady, preconnectUrl, resolverCalls, posted, List.filterMap_append]

theorem sameReady_layoutCallback (host : Host) (self : AmpNexxtvPlayer) :
    SameReady self (layoutCallback host self).2 := by
  have h := sameReady_getVideoIframeSrc_ host self
  unfold layoutCallback
  split
  · rename_i e w heq
    rw [heq] at h
    exact h
  · rename_i u w heq
    rw [heq] at h
    split
    · exact h
    · refine h.trans ?_
      simp [SameReady, resolverCalls, posted, List.filterMap_append]

theorem sameReady_unlayoutCallback (self : AmpNexxtvPlayer) :
    SameReady self (unlayoutCallback self).2 := by
  unfold unlayoutCallback
  simp only []
  split <;> split <;>
    simp_all [SameReady, resolverCalls, posted, List.filterMap_append]

theorem runMicrotasks_nil (self : AmpNexxtvPlayer) (h : self.microtasks = []) :
    runMicrotasks self = self := by
  unfold runMicrotasks
  rw [h]
  cases self
  simp_all

theorem foldl_sendCommand_ready (l : List String) (w : AmpNexxtvPlayer) :
    (l.foldl (fun w command => settle (sendCommand_ command w)) w).playerReadyPromise_
        = w.playerReadyPromise_
    ∧ (l.foldl (fun w command => settle (sendCommand_ command w)) w).playerReadyResolver_
        = w.playerReadyResolver_
    ∧ resolverCalls (l.foldl (fun w command => settle (sendCommand_ command w)) w)
        = resolverCalls w
    ∧ (l.foldl (fun w command => settle (sendCommand_ command w)) w).microtasks
        = w.microtasks := by
  induction l generalizing w with
  | nil => exact ⟨rfl, rfl, rfl, rfl⟩
  | cons a l ih =>
    rw [List.foldl_cons]
    obtain ⟨i1, i2, i3, i4⟩ := ih (settle (sendCommand_ a w))
    have hs : (settle (sendCommand_ a w)).playerReadyPromise_ = w.playerReadyPromise_
        ∧ (settle (sendCommand_ a w)).playerReadyResolver_ = w.playerReadyResolver_
        ∧ resolverCalls (settle (sendCommand_ a w)) = resolverCalls w
        ∧ (settle (sendCommand_ a w)).microtasks = w.microtasks := by
      unfold sendCommand_ settle
      cases w.iframe_ <;> simp [resolverCalls, List.filterMap_append]
    exact ⟨i1.trans hs.1, i2.trans hs.2.1, i3.trans hs.2.2.1, i4.trans hs.2.2.2⟩

theorem runMicrotasks_ready (self : AmpNexxtvPlayer) :
    (runMicrotasks self).playerReadyPromise_ = self.playerReadyPromise_
    ∧ (runMicrotasks self).playerReadyResolver_ = self.playerReadyResolver_
    ∧ resolverCalls (runMicrotasks self) = resolverCalls self
    ∧ (runMicrotasks self).microtasks = [] := by
  unfold runMicrotasks
  obtain ⟨h1, h2, h3, h4⟩ := foldl_sendCommand_ready self.microtasks
    { self with microtasks := [] }
  exact ⟨h1, h2, h3, h4⟩

theorem readyInv_runMicrotasks {k : Nat} {self : AmpNexxtvPlayer} (h : ReadyInv k self) :
    ReadyInv k (runMicrotasks self) := by
  obtain ⟨p, hp, hk, hr, hcase⟩ := h
  rcases hcase with ⟨hs, h1, h2, h3⟩ | ⟨hs, n, hn⟩
  · rw [runMicrotasks_nil self h3]
    exact ⟨p, hp, hk, hr, Or.inl ⟨hs, h1, h2, h3⟩⟩
  · obtain ⟨m1, m2, m3, -⟩ := runMicrotasks_ready self
    exact ⟨p, m1.trans hp, hk, m2.trans hr, Or.inr ⟨hs, n, m3.trans hn⟩⟩

theorem readyInv_callPlayerReadyResolver_ {k : Nat} {self : AmpNexxtvPlayer}
    (h : ReadyInv k self) :
    ReadyInv k (callPlayerReadyResolver_ self).2
    ∧ (callPlayerReadyResolver_ self).1 = .ok ()
    ∧ readyState (callPlayerReadyResolver_ self).2 = some .fulfilled := by
  obtain ⟨p, hp, hk, hr, hcase⟩ := h
  rcases hcase with ⟨hs, h1, h2, h3⟩ | ⟨hs, n, hn⟩
  · have e : callPlayerReadyResolver_ self = (.ok (), { self with
        playerReadyPromise_ := some { p with state := .fulfilled, reactions := [] }
        microtasks := self.microtasks ++ p.reactions
        effects := self.effects ++ [Effect.resolve true] }) := by
      simp [callPlayerReadyResolver_, hr, hp, hk, hs]
    rw [e]
    refine ⟨⟨{ p with state := .fulfilled, reactions := [] }, rfl, hk, hr,
      Or.inr ⟨rfl, 0, ?_⟩⟩, rfl, rfl⟩
    simp only [resolverCalls] at h1 ⊢
    simp [List.filterMap_append, h1]
  · have e : callPlayerReadyResolver_ self = (.ok (), { self with
        effects := self.effects ++ [Effect.resolve false] }) := by
      simp [callPlayerReadyResolver_, hr, hp, hk, hs]
    rw [e]
    refine ⟨⟨p, hp, hk, hr, Or.inr ⟨hs, n + 1, ?_⟩⟩, rfl, ?_⟩
    · simp only [resolverCalls] at hn ⊢
      simp only [List.filterMap_append, hn]
      simp [List.replicate_succ']
    · simp [readyState, hp, hs]

theorem readyInv_playerReadyPromiseThen {k : Nat} {self : AmpNexxtvPlayer}
    (h : ReadyInv k self) (command : String) :
    ReadyInv k (playerReadyPromiseThen command self).2
    ∧ (playerReadyPromiseThen command self).1 = .ok ()
    ∧ readyState (playerReadyPromiseThen command self).2 = readyState self := by
  obtain ⟨p, hp, hk, hr, hcase⟩ := h
  rcases hcase with ⟨hs, h1, h2, h3⟩ | ⟨hs, n, hn⟩
  · have e : playerReadyPromiseThen command self = (.ok (), { self with
        playerReadyPromise_ := some { p with reactions := p.reactions ++ [command] } }) := by
      simp [playerReadyPromiseThen, hp, hs]
    rw [e]
    exact ⟨⟨{ p with reactions := p.reactions ++ [command] }, rfl, hk, hr,
      Or.inl ⟨hs, h1, h2, h3⟩⟩, rfl, by simp [readyState, hp, hs]⟩
  · have e : playerReadyPromiseThen command self = (.ok (), { self with
        microtasks := self.microtasks ++ [command] }) := by
      simp [playerReadyPromiseThen, hp, hs]
    rw [e]
    exact ⟨⟨p, hp, hk, hr, Or.inr ⟨hs, n, hn⟩⟩, rfl, by simp [readyState, hp]⟩

theorem readyState_of_sameReady {a b : AmpNexxtvPlayer} (h : SameReady a b) :
    readyState b = readyState a := by
  unfold readyState
  rw [h.1]

theorem handleNexxMessages_cases (host : Host) (eventData : JsValue) (self : AmpNexxtvPlayer) :
    (cmdEquals (messageData host eventData) "onload" = .ok true
      ∧ handleNexxMessages_ host eventData self
          = callPlayerReadyResolver_ (dispatchCustomEvent self .LOAD none))
    ∨ (cmdEquals (messageData host eventData) "onload" ≠ .ok true
      ∧ SameReady self (handleNexxMessages_ host eventData self).2) := by
  unfold handleNexxMessages_ messageData
  simp only []
  have hd := fun ev => sameReady_dispatchCustomEvent self ev none
  generalize (if isObject eventData = true then eventData else host.tryParseJson eventData)
    = data
  split
  · right
    exact ⟨by simp [cmdEquals, JsValue.get], SameReady.refl _⟩
  · split
    · rename_i he
      right; rw [he]; exact ⟨by simp, SameReady.refl _⟩
    · rename_i he
      left; exact ⟨he, rfl⟩
    · rename_i he
      right
      rw [he]
      refine ⟨by simp, ?_⟩
      split
      · exact SameReady.refl _
      · exact hd _
      · split
        · exact SameReady.refl _
        · exact hd _
        · split
          · exact SameReady.refl _
          · exact hd _
          · split
            · exact SameReady.refl _
            · exact hd _
            · exact SameReady.refl _

/-- One call other than `buildCallback` keeps the invariant; it leaves the
promise fulfilled when it calls the resolver and leaves its state as it was
when it does not. -/
theorem readyInv_step (host : Host) (c : Call) (self : AmpNexxtvPlayer) (k : Nat)
    (h : ReadyInv k self) (hc : c ≠ .buildCallback) :
    ReadyInv k (step host c self)
    ∧ (invokesResolver host c → readyState (step host c self) = some .fulfilled)
    ∧ (¬ invokesResolver host c → readyState (step host c self) = readyState self) := by
  have same : ∀ {α : Type} (o : Outcome α), SameReady self o.2 →
      ReadyInv k (settle o) ∧ readyState (settle o) = readyState self := fun o hs =>
    ⟨h.of_sameReady (hs.trans (sameReady_settle o)),
      readyState_of_sameReady (hs.trans (sameReady_settle o))⟩
  have thenCase : ∀ command,
      ReadyInv k (settle (playerReadyPromiseThen command self))
      ∧ readyState (settle (playerReadyPromiseThen command self)) = readyState self := by
    intro command
    obtain ⟨t1, -, t3⟩ := readyInv_playerReadyPromiseThen h command
    exact ⟨t1.of_sameReady (sameReady_settle _),
      (readyState_of_sameReady (sameReady_settle _)).trans t3⟩
  have noInvoke : ∀ {d : Call}, (d ≠ .iframeLoaded) → (∀ e, d ≠ .message e) →
      ¬ invokesResolver host d := by
    intro d h1 h2 hi
    rcases hi with hi | ⟨e, hi, -⟩
    · exact h1 hi
    · exact h2 e hi
  cases c with
  | buildCallback => exact absurd rfl hc
  | preconnectCallback o =>
    obtain ⟨a, b⟩ := same _ (sameReady_preconnectCallback host o self)
    exact ⟨a, fun hi => absurd hi (noInvoke (by simp) (by simp)), fun _ => b⟩
  | viewportCallback v =>
    obtain ⟨a, b⟩ := same (viewportCallback v self) (sameReady_dispatchCustomEvent self _ _)
    exact ⟨a, fun hi => absurd hi (noInvoke (by simp) (by simp)), fun _ => b⟩
  | layoutCallback =>
    obtain ⟨a, b⟩ := same _ (sameReady_layoutCallback host self)
    exact ⟨a, fun hi => absurd hi (noInvoke (by simp) (by simp)), fun _ => b⟩
  | unlayoutCallback =>
    obtain ⟨a, b⟩ := same _ (sameReady_unlayoutCallback self)
    exact ⟨a, fun hi => absurd hi (noInvoke (by simp) (by simp)), fun _ => b⟩
  | setAttributes attrs =>
    have hs : SameReady self (step host (.setAttributes attrs) self) := ⟨rfl, rfl, rfl, rfl, rfl⟩
    exact ⟨h.of_sameReady hs, fun hi => absurd hi (noInvoke (by simp) (by simp)),
      fun _ => readyState_of_sameReady hs⟩
  | play =>
    obtain ⟨a, b⟩ := thenCase "play"
    exact ⟨a, fun hi => absurd hi (noInvoke (by simp) (by simp)), fun _ => b⟩
  | pause =>
    obtain ⟨a, b⟩ := thenCase "pause"
    exact ⟨a, fun hi => absurd hi (noInvoke (by simp) (by simp)), fun _ => b⟩
  | mute =>
    obtain ⟨a, b⟩ := thenCase "mute"
    exact ⟨a, fun hi => absurd hi (noInvoke (by simp) (by simp)), fun _ => b⟩
  | unmute =>
    obtain ⟨a, b⟩ := thenCase "unmute"
    exact ⟨a, fun hi => absurd hi (noInvoke (by simp) (by simp)), fun _ => b⟩
  | pauseCallback =>
    refine ⟨?_, fun hi => absurd hi (noInvoke (by simp) (by simp)), fun _ => ?_⟩
    · simp only [step, pauseCallback]
      split
      · exact (thenCase "pause").1
      · exact (@same Unit (.ok (), self) (SameReady.refl _)).1
    · simp only [step, pauseCallback]
      split
      · exact (thenCase "pause").2
      · exact (@same Unit (.ok (), self) (SameReady.refl _)).2
  | microtasks =>
    refine ⟨readyInv_runMicrotasks h, fun hi => absurd hi (noInvoke (by simp) (by simp)),
      fun _ => ?_⟩
    simp only [step, readyState, (runMicrotasks_ready self).1]
  | iframeLoaded =>
    have hi := h.of_sameReady (sameReady_dispatchCustomEvent self .LOAD none)
    obtain ⟨r1, -, r3⟩ := readyInv_callPlayerReadyResolver_ hi
    refine ⟨r1.of_sameReady (sameReady_settle _), fun _ => ?_,
      fun hn => absurd (Or.inl rfl) hn⟩
    exact (readyState_of_sameReady (sameReady_settle _)).trans r3
  | message d =>
    rcases handleNexxMessages_cases host d self with ⟨hcmd, hh⟩ | ⟨hcmd, hs⟩
    · have hi := h.of_sameReady (sameReady_dispatchCustomEvent self .LOAD none)
      obtain ⟨r1, -, r3⟩ := readyInv_callPlayerReadyResolver_ hi
      simp only [step, hh]
      refine ⟨r1.of_sameReady (sameReady_settle _), fun _ => ?_,
        fun hn => absurd (Or.inr ⟨d, rfl, hcmd⟩) hn⟩
      exact (readyState_of_sameReady (sameReady_settle _)).trans r3
    · obtain ⟨a, b⟩ := same _ hs
      refine ⟨a, fun hi => ?_, fun _ => b⟩
      rcases hi with hi | ⟨e, hi, he⟩
      · cases hi
      · cases hi
        exact absurd he hcmd

theorem readyState_of_readyInv {k : Nat} {self : AmpNexxtvPlayer} (h : ReadyInv k self) :
    (readyState self = some .pending ∧ resolverCalls self = [] ∧ posted self = [])
    ∨ (readyState self = some .fulfilled
        ∧ ∃ n, resolverCalls self = true :: List.replicate n false) := by
  obtain ⟨p, hp, -, -, hcase⟩ := h
  rcases hcase with ⟨hs, h1, h2, -⟩ | ⟨hs, hn⟩
  · exact Or.inl ⟨by simp [readyState, hp, hs], h1, h2⟩
  · exact Or.inr ⟨by simp [readyState, hp, hs], hn⟩

theorem readyInv_run (host : Host) (calls : List Call) (self : AmpNexxtvPlayer) (k : Nat)
    (h : ReadyInv k self) (hnb : Call.buildCallback ∉ calls) :
    ReadyInv k (run host calls self)
    ∧ (readyState self = some .fulfilled → readyState (run host calls self) = some .fulfilled)
    ∧ ((∃ c ∈ calls, invokesResolver host c) →
        readyState (run host calls self) = some .fulfilled)
    ∧ ((¬ ∃ c ∈ calls, invokesResolver host c) →
        readyState (run host calls self) = readyState self) := by
  induction calls generalizing self with
  | nil => exact ⟨h, fun hf => hf, fun ⟨c, hc, _⟩ => absurd hc (List.not_mem_nil c), fun _ => rfl⟩
  | cons c cs ih =>
    have hc : c ≠ .buildCallback := fun e => hnb (e ▸ List.mem_cons_self _ _)
    have hcs : Call.buildCallback ∉ cs := fun e => hnb (List.mem_cons_of_mem _ e)
    obtain ⟨s1, s2, s3⟩ := readyInv_step host c self k h hc
    obtain ⟨i1, i2, i3, i4⟩ := ih (step host c self) s1 hcs
    have keep : readyState self = some .fulfilled →
        readyState (step host c self) = some .fulfilled := by
      intro hf
      by_cases hi : invokesResolver host c
      · exact s2 hi
      · rw [s3 hi]; exact hf
    refine ⟨i1, fun hf => i2 (keep hf), ?_, ?_⟩
    · rintro ⟨d, hd, hdi⟩
      rcases List.mem_cons.mp hd with e | e
      · subst e; exact i2 (s2 hdi)
      · exact i3 ⟨d, e, hdi⟩
    · intro hn
      have hn1 : ¬ invokesResolver host c := fun hi => hn ⟨c, List.mem_cons_self _ _, hi⟩
      have hn2 : ¬ ∃ d ∈ cs, invokesResolver host d :=
        fun ⟨d, hd, hdi⟩ => hn ⟨d, List.mem_cons_of_mem _ hd, hdi⟩
      show readyState (run host cs (step host c self)) = readyState self
      rw [i4 hn2, s3 hn1]

theorem readyInv_buildCallback (attributes : List (String × String)) :
    ReadyInv 0 (buildCallback (new attributes)).2 :=
  ⟨{ serial := 0, state := .pending, reactions := [] }, rfl, rfl, rfl,
    Or.inl ⟨rfl, rfl, rfl, rfl⟩⟩

/-- C5 as stated fails: after `buildCallback`, a sequence with no load of
the iframe and no `onload` message leaves the promise pending, with no call
of the resolver at all; and a sequence with both calls the resolver twice,
of which the first call settles the promise and the second does nothing. -/
theorem readiness_promise_not_exactly_once :
    readyState (run exampleHost
        [.buildCallback, .layoutCallback, .play, .microtasks, .unlayoutCallback, .pause]
        examplePlayer) = some .pending
    ∧ resolverCalls (run exampleHost
        [.buildCallback, .layoutCallback, .play, .microtasks, .unlayoutCallback, .pause]
        examplePlayer) = []
    ∧ resolverCalls (run exampleHost
        [.buildCallback, .layoutCallback, .iframeLoaded,
          .message (.object [("cmd", .string "onload")])]
        examplePlayer) = [true, false] :=
  ⟨by decide, by decide, by decide⟩

/-- C5, amended: `buildCallback` on a new element installs a pending promise
and its resolver; after any further calls that hold no second
`buildCallback`, the promise and the resolver are still the ones installed
and the promise is not rejected; if one of the calls was a load of the
iframe or an `onload` message, the promise is fulfilled, the first call of
the resolver settled it and no later call did; if none was, the promise is
pending and the resolver was never called; and a fulfilled promise stays
fulfilled under any more such calls. -/
theorem readiness_promise_one_shot (host : Host) (attributes : List (String × String))
    (calls : List Call) (hnb : Call.buildCallback ∉ calls) :
    (buildCallback (new attributes)).2.playerReadyPromise_
        = some { serial := 0, state := .pending, reactions := [] }
    ∧ (buildCallback (new attributes)).2.playerReadyResolver_ = some 0
    ∧ (∃ p, (run host (.buildCallback :: calls) (new attributes)).playerReadyPromise_ = some p
        ∧ p.serial = 0 ∧ p.state ≠ .rejected)
    ∧ (run host (.buildCallback :: calls) (new attributes)).playerReadyResolver_ = some 0
    ∧ ((∃ c ∈ calls, invokesResolver host c) →
        readyState (run host (.buildCallback :: calls) (new attributes)) = some .fulfilled
        ∧ ∃ n, resolverCalls (run host (.buildCallback :: calls) (new attributes))
            = true :: List.replicate n false)
    ∧ ((¬ ∃ c ∈ calls, invokesResolver host c) →
        readyState (run host (.buildCallback :: calls) (new attributes)) = some .pending
        ∧ resolverCalls (run host (.buildCallback :: calls) (new attributes)) = [])
    ∧ (∀ more, Call.buildCallback ∉ more →
        readyState (run host (.buildCallback :: calls) (new attributes)) = some .fulfilled →
        readyState (run host more (run host (.buildCallback :: calls) (new attributes)))
          = some .fulfilled) := by
  have hb := readyInv_buildCallback attributes
  have hrun : run host (.buildCallback :: calls) (new attributes)
      = run host calls (buildCallback (new attributes)).2 := rfl
  rw [hrun]
  obtain ⟨i1, -, i3, i4⟩ := readyInv_run host calls _ 0 hb hnb
  refine ⟨rfl, rfl, ?_, ?_, ?_, ?_, ?_⟩
  · obtain ⟨p, hp, hk, -, hcase⟩ := i1
    refine ⟨p, hp, hk, ?_⟩
    rcases hcase with ⟨hs, -⟩ | ⟨hs, -⟩ <;> rw [hs] <;> decide
  · obtain ⟨p, -, -, hr, -⟩ := i1
    exact hr
  · intro hex
    have hf := i3 hex
    rcases readyState_of_readyInv i1 with ⟨hs, -⟩ | ⟨-, hn⟩
    · rw [hf] at hs; cases hs
    · exact ⟨hf, hn⟩
  · intro hex
    have hf : readyState (run host calls (buildCallback (new attributes)).2) = some .pending :=
      i4 hex
    rcases readyState_of_readyInv i1 with ⟨-, hn, -⟩ | ⟨hs, -⟩
    · exact ⟨hf, hn⟩
    · rw [hf] at hs; cases hs
  · intro more hmore hf
    exact (readyInv_run host more _ 0 i1 hmore).2.1 hf

/-- C5, amended, on the example element: build, layout, the load of the
iframe, an `onload` message, `unlayoutCallback`, then `play()`. The promise
is fulfilled and only the first call of the resolver settled it. -/
theorem readiness_promise_one_shot_witness :
    readyState (run exampleHost
        [.buildCallback, .layoutCallback, .iframeLoaded,
          .message (.object [("cmd", .string "onload")]), .unlayoutCallback, .play]
        (new [("data-mediaid", "PTPFEC4U184674"), ("data-client", "583")]))
      = some .fulfilled
    ∧ ∃ n, resolverCalls (run exampleHost
        [.buildCallback, .layoutCallback, .iframeLoaded,
          .message (.object [("cmd", .string "onload")]), .unlayoutCallback, .play]
        (new [("data-mediaid", "PTPFEC4U184674"), ("data-client", "583")]))
      = true :: List.replicate n false :=
  (readiness_promise_one_shot exampleHost
    [("data-mediaid", "PTPFEC4U184674"), ("data-client", "583")]
    [.layoutCallback, .iframeLoaded, .message (.object [("cmd", .string "onload")]),
      .unlayoutCallback, .play]
    (by simp)).2.2.2.2.1 ⟨.iframeLoaded, by simp, Or.inl rfl⟩

/-- The gating half of C3 holds on the code: after `buildCallback` on a new
element and any further calls with no second `buildCallback`, nothing has
been posted to the iframe while the readiness promise is pending. -/
theorem no_post_while_pending (host : Host) (attributes : List (String × String))
    (calls : List Call) (hnb : Call.buildCallback ∉ calls)
    (hpending : readyState (run host (.buildCallback :: calls) (new attributes))
      = some .pending) :
    posted (run host (.buildCallback :: calls) (new attributes)) = [] := by
  have hrun : run host (.buildCallback :: calls) (new attributes)
      = run host calls (buildCallback (new attributes)).2 := rfl
  rw [hrun] at hpending ⊢
  have i1 := (readyInv_run host calls _ 0 (readyInv_buildCallback attributes) hnb).1
  rcases readyState_of_readyInv i1 with ⟨-, -, hp⟩ | ⟨hs, -⟩
  · exact hp
  · rw [hpending] at hs; cases hs

/-- C6 on the example element: the URL returned first is still returned
after the attributes were emptied and the element built, laid out and
unlaid, by a later call under the same host. -/
theorem getVideoIframeSrc_cached_witness :
    (run exampleHost [.setAttributes [], .buildCallback, .layoutCallback, .unlayoutCallback]
        (getVideoIframeSrc_ exampleHost examplePlayer).2).videoIframeSrc_
      = some "https://embed.nexx.cloud/audio/583/PTPFEC4U184674?start=0&datamode=static&amp=1"
    ∧ getVideoIframeSrc_ exampleHost
        (run exampleHost [.setAttributes [], .buildCallback, .layoutCallback, .unlayoutCallback]
          (getVideoIframeSrc_ exampleHost examplePlayer).2)
      = (.ok "https://embed.nexx.cloud/audio/583/PTPFEC4U184674?start=0&datamode=static&amp=1",
        run exampleHost [.setAttributes [], .buildCallback, .layoutCallback, .unlayoutCallback]
          (getVideoIframeSrc_ exampleHost examplePlayer).2) :=
  have h := getVideoIframeSrc_cached exampleHost examplePlayer
    (getVideoIframeSrc_ exampleHost examplePlayer).2
    "https://embed.nexx.cloud/audio/583/PTPFEC4U184674?start=0&datamode=static&amp=1"
    (by rfl) (by decide) exampleHost
    [.setAttributes [], .buildCallback, .layoutCallback, .unlayoutCallback] exampleHost none
  ⟨h.1, h.2.1⟩

/-- C9 on the example element, whose stream type is `audio`: two `/` after
the origin. -/
theorem getVideoIframeSrc_structure_witness :
    ∃ src rest front : String,
      (∀ host : Host, getVideoIframeSrc_ host examplePlayer =
        match host.assertAbsoluteHttpOrHttpsUrl src with
        | .error e => (.error e, examplePlayer)
        | .ok url => (.ok url, { examplePlayer with videoIframeSrc_ := some url }))
      ∧ src = "https://embed.nexx.cloud/" ++ rest
      ∧ src = front ++ "&amp=1"
      ∧ src.data.count '?' = 1
      ∧ src.data.count '&' = 2
      ∧ src.data.count '#' = 0
      ∧ rest.data.count '/' = 2 :=
  getVideoIframeSrc_structure examplePlayer "583" "PTPFEC4U184674"
    (by decide) (by decide) (by decide) (by decide) (by decide) (by decide)

end AmpNexxtvPlayer
